import Mathlib

/-!
Verification of the core of the weather_monitoring repository against its
specification.  The Python source is shallowly embedded: floats are
modelled as exact rationals (`ℚ`), Python dicts used only through
`get(key, default)` become total functions, `datetime` values become
rational hour offsets on a common axis, and the network is a scripted
list of upstream responses.  The Python builtin `round(x, n)` (round-half-to-even
on the exact value) is modelled by `pyRound`.
-/

namespace WeatherMonitoring

/-- The fields of the `Settings` class of `src/config.py` that the alert system and
the update endpoint consume.  Defaults are the defaults of `config.py`. -/
structure Settings where
  ALERT_TEMPERATURE_THRESHOLD : ℚ := 35
  CONSECUTIVE_ALERTS_REQUIRED : ℤ := 2
deriving Repr, DecidableEq

/-- The process-wide `settings` object with its default values. -/
def settings0 : Settings := {}

/-- `AlertSystem.__init__` (src/alerts.py lines 7-10): the threshold and
consecutive count are read from `settings` once, at construction, and the
per-city consecutive counter dict starts empty.  The dict is only ever
read through `get(city, 0)`, so it is modelled as a total function that
is initially constantly 0. -/
structure AlertSystem where
  temperature_threshold : ℚ
  consecutive_required : ℤ
  alert_counts : String → ℤ

def AlertSystem.init (s : Settings) : AlertSystem :=
  { temperature_threshold := s.ALERT_TEMPERATURE_THRESHOLD
    consecutive_required := s.CONSECUTIVE_ALERTS_REQUIRED
    alert_counts := fun _ => 0 }

/-- `AlertSystem.check_temperature_alert` (src/alerts.py lines 12-20).
Returns the fired flag (`True` exactly when `send_alert` was invoked,
i.e. an AlertEvent was emitted) together with the updated state. -/
def AlertSystem.check_temperature_alert (s : AlertSystem) (city : String)
    (temperature : ℚ) : Bool × AlertSystem :=
  if s.temperature_threshold < temperature then
    let c := s.alert_counts city + 1
    let s1 := { s with alert_counts := fun x => if x = city then c else s.alert_counts x }
    if s.consecutive_required ≤ c then (true, s1) else (false, s1)
  else
    (false, { s with alert_counts := fun x => if x = city then 0 else s.alert_counts x })

/-- Feed a sequence of temperature readings for one city through the
detector, collecting the fired flags in order. -/
def AlertSystem.runSeq (s : AlertSystem) (city : String) :
    List ℚ → List Bool × AlertSystem
  | [] => ([], s)
  | t :: ts =>
    let r := s.check_temperature_alert city t
    let rest := r.2.runSeq city ts
    (r.1 :: rest.1, rest.2)

/-- The body of `update_alert_config` (src/main.py lines 464-481): the
endpoint overwrites the two fields of the global `settings` object. -/
structure AlertConfig where
  temperature_threshold : ℚ
  consecutive_required : ℤ

def update_alert_config (s : Settings) (config : AlertConfig) : Settings :=
  { s with
    ALERT_TEMPERATURE_THRESHOLD := config.temperature_threshold
    CONSECUTIVE_ALERTS_REQUIRED := config.consecutive_required }

/-! ### DataProcessor (src/data_processor.py) -/

/-- The Python builtin `round(q, ndigits)` on an exact value: round half to even. -/
def roundHalfEven (q : ℚ) : ℤ :=
  let f := ⌊q⌋
  let r := q - f
  if r < 1/2 then f
  else if 1/2 < r then f + 1
  else if f % 2 = 0 then f else f + 1

def pyRound (q : ℚ) (ndigits : ℕ) : ℚ :=
  (roundHalfEven (q * 10 ^ ndigits) : ℚ) / 10 ^ ndigits

/-- The two fields of a weather-record dict that
`determine_dominant_weather` and `calculate_condition_duration` read:
`main_weather` and `timestamp`.  Timestamps are hours (as exact
rationals) on a common axis; the expression
`(a − b).total_seconds() / 3600` is then just `a − b`. -/
structure WRec where
  main_weather : String
  timestamp : ℚ
deriving Repr, DecidableEq

/-- The `severity_weights` table (src/data_processor.py lines 98-108)
together with the `.get(cond, 1)` default used at lines 121/145. -/
def severity_weights (w : String) : ℚ :=
  if w = "Thunderstorm" then 5
  else if w = "Snow" then 4
  else if w = "Rain" then 3
  else if w = "Drizzle" then 2
  else if w = "Fog" then 2
  else if w = "Clouds" then 1
  else if w = "Clear" then 1
  else if w = "Mist" then 1
  else if w = "Haze" then 1
  else 1

/-- Loop state of `calculate_condition_duration`: `current_duration`,
`max_duration` and `prev_timestamp` (a `datetime` or `None`; a datetime
is always truthy, hence the `Option`). -/
structure DurState where
  current_duration : ℚ
  max_duration : ℚ
  prev_timestamp : Option ℚ
deriving Repr, DecidableEq

/-- One iteration of the `for record in records` loop of
`calculate_condition_duration` (src/data_processor.py lines 158-170). -/
def durStep (condition : String) (s : DurState) (r : WRec) : DurState :=
  if r.main_weather = condition then
    let s1 :=
      match s.prev_timestamp with
      | some p =>
        let time_diff := r.timestamp - p
        if time_diff ≤ 6 then { s with current_duration := s.current_duration + time_diff }
        else { s with current_duration := 0 }
      | none => s
    { current_duration := s1.current_duration
      max_duration := max s1.max_duration s1.current_duration
      prev_timestamp := some r.timestamp }
  else
    { s with current_duration := 0, prev_timestamp := none }

/-- The key of the `sorted(records, key=lambda x: ...)` call, which sorts
by timestamp; `List.mergeSort` is a stable sort, like the Python sort. -/
def tsLe (a b : WRec) : Bool := a.timestamp ≤ b.timestamp

/-- `DataProcessor.calculate_condition_duration`
(src/data_processor.py lines 148-172). -/
def calculate_condition_duration (records : List WRec) (condition : String) : ℚ :=
  if records = [] then 0
  else
    let sortedRecords := records.mergeSort tsLe
    pyRound ((sortedRecords.foldl (durStep condition) ⟨0, 0, none⟩).max_duration) 1

/-- Successive-reading relation of the specification: time-ordered with
a gap of at most 6 hours. -/
def gapRel (a b : ℚ) : Prop := a ≤ b ∧ b - a ≤ 6

/-- Timestamp of the last record of `rs`, or `p` when `rs` is empty. -/
def lastTsFrom (p : ℚ) (rs : List WRec) : ℚ := rs.getLast?.elim p WRec.timestamp

/-- Timestamp of the last record of a list (0 when empty). -/
def lastTs (l : List WRec) : ℚ := l.getLast?.elim 0 WRec.timestamp

/-- Result dict of `determine_dominant_weather`.  The empty-input return
at line 95 carries no `"severity"` key, hence `severity : Option ℚ`. -/
structure DomResult where
  condition : Option String
  confidence : ℚ
  duration : ℚ
  severity : Option ℚ
deriving Repr, DecidableEq

/-- `weather_scores[k] = weather_scores.get(k, 0) + w` on an
insertion-ordered dict (Python dicts preserve insertion order, which the
later `max` over `.items()` observes). -/
def addScore : List (String × ℚ) → String → ℚ → List (String × ℚ)
  | [], k, w => [(k, w)]
  | (k1, v) :: rest, k, w =>
    if k1 = k then (k1, v + w) :: rest else (k1, v) :: addScore rest k w

/-- The Python `max(items, key=lambda x: x[1])`: the first item of maximal
value in iteration order (later items replace only on strict increase). -/
def maxByValue (x : String × ℚ) (rest : List (String × ℚ)) : String × ℚ :=
  rest.foldl (fun best y => if best.2 < y.2 then y else best) x

/-- `DataProcessor.determine_dominant_weather`
(src/data_processor.py lines 85-146).  The code reads the clock itself
(`now = datetime.utcnow()`, line 113); that hidden clock read is the
explicit parameter `now` here. -/
def determine_dominant_weather (weather_records : List WRec) (now : ℚ) : DomResult :=
  if weather_records = [] then ⟨none, 0, 0, none⟩
  else
    let acc := weather_records.foldl
      (fun (a : List (String × ℚ) × ℚ) record =>
        let time_diff := now - record.timestamp
        let time_weight := 1 / (1 + time_diff)
        let severity := severity_weights record.main_weather
        let weight := time_weight * severity
        (addScore a.1 record.main_weather weight, a.2 + weight))
      ([], 0)
    match acc.1 with
    | [] => ⟨none, 0, 0, none⟩
    | x :: rest =>
      let dominant_weather := maxByValue x rest
      let confidence := if 0 < acc.2 then dominant_weather.2 / acc.2 * 100 else 0
      let duration_hours := calculate_condition_duration weather_records dominant_weather.1
      ⟨some dominant_weather.1, pyRound confidence 2, duration_hours,
        some (severity_weights dominant_weather.1)⟩

/-! ### WeatherService (src/src/weather_service.py)

`get_weather_data` is embedded against a scripted upstream: a list of
the responses the server would give to successive requests.  Each
attempted request consumes one response (an empty script behaves like a
connection error that consumes nothing).  Observable side effects are
collected as an event trace.  Time is frozen at the single parameter
`now` for one top-level call; real-time aspects (`max_time=30`, the
aiohttp 30s timeout, jittered backoff durations) are not modelled —
backoff sleeps appear as an opaque `backoffSleep` event. -/

/-- The `processed_data` dict built on a 200 response
(src/src/weather_service.py lines 62-70). -/
structure Reading where
  city : String
  main_weather : String
  temperature : ℚ
  feels_like : ℚ
  humidity : ℚ
  wind_speed : ℚ
  timestamp : ℚ
deriving Repr, DecidableEq

/-- The fields of a 200 response body that the client consumes. -/
structure UpstreamData where
  main_weather : String
  temp : ℚ
  feels_like : ℚ
  humidity : ℚ
  wind_speed : ℚ
  dt : ℚ
deriving Repr, DecidableEq

/-- One scripted upstream response. `status code` stands for any status
other than 200 and 429 (the final `else` branch of the code, line 78);
`netErr` is an `aiohttp.ClientError` / `asyncio.TimeoutError`. -/
inductive Upstream where
  | ok (d : UpstreamData)
  | rateLimited (retry_after : Option ℕ)
  | status (code : ℕ)
  | netErr
deriving Repr, DecidableEq

/-- Observable side effects of one `get_weather_data` call. -/
inductive Event where
  | ensureSession
  | permitAcquire
  | permitRelease
  | upstreamCall
  | sleep (seconds : ℕ)
  | backoffSleep
deriving Repr, DecidableEq

/-- A call either returns a value (`Some dict` or `None`) or lets an
exception escape (what `backoff` re-raises after its last try). -/
inductive FetchResult where
  | returned (r : Option Reading)
  | raised
deriving Repr, DecidableEq

/-- The `TTLCache` keyed by `f"{city}_weather"`: entries carry their
expiry instant (`insertion time + 300`); an entry is treated as absent
once `expires < now` (the lazy expiry of cachetools).  The `maxsize=100`
capacity bound is not exercised by any claim and is not modelled. -/
def Cache := List (String × Reading × ℚ)
deriving Repr, DecidableEq

def cacheLookup (cache : Cache) (key : String) (now : ℚ) : Option Reading :=
  match (cache : List _).find? (fun e => e.1 == key) with
  | some e => if e.2.2 < now then none else some e.2.1
  | none => none

def cacheSet : Cache → String → Reading → ℚ → Cache
  | [], key, r, expires => [(key, r, expires)]
  | e :: rest, key, r, expires =>
    if e.1 = key then (key, r, expires) :: rest else e :: cacheSet rest key r expires

def mkReading (city : String) (d : UpstreamData) : Reading :=
  ⟨city, d.main_weather, d.temp, d.feels_like, d.humidity, d.wind_speed, d.dt⟩

structure FetchOut where
  result : FetchResult
  cache : Cache
  remaining : List Upstream
  events : List Event
deriving Repr, DecidableEq

/-- `WeatherService.get_weather_data` (src/src/weather_service.py lines
36-87) with `tries` remaining attempts of the `backoff.on_exception`
decorator (`max_tries=3`).  The 429 branch (lines 74-77) sleeps for the
`Retry-After` value (default 60) and recursively re-enters the fully
decorated function — with a fresh `max_tries` budget — while still
holding the outer concurrency permit. -/
def getWeatherGo (city : String) (now : ℚ) (tries : ℕ) (cache : Cache)
    (resps : List Upstream) : FetchOut :=
  match cacheLookup cache (city ++ "_weather") now, resps with
  | some r, _ => ⟨.returned (some r), cache, resps, []⟩
  | none, [] =>
      if h : tries ≤ 1 then
        ⟨.raised, cache, [], [.ensureSession, .permitAcquire, .upstreamCall, .permitRelease]⟩
      else
        let o := getWeatherGo city now (tries - 1) cache []
        ⟨o.result, o.cache, o.remaining,
          [.ensureSession, .permitAcquire, .upstreamCall, .permitRelease, .backoffSleep]
            ++ o.events⟩
  | none, .ok d :: rest =>
      let r := mkReading city d
      ⟨.returned (some r), cacheSet cache (city ++ "_weather") r (now + 300), rest,
        [.ensureSession, .permitAcquire, .upstreamCall, .permitRelease]⟩
  | none, .rateLimited ra :: rest =>
      let o := getWeatherGo city now 3 cache rest
      ⟨o.result, o.cache, o.remaining,
        [.ensureSession, .permitAcquire, .upstreamCall, .sleep (ra.getD 60)]
          ++ o.events ++ [.permitRelease]⟩
  | none, .status _ :: rest =>
      ⟨.returned none, cache, rest,
        [.ensureSession, .permitAcquire, .upstreamCall, .permitRelease]⟩
  | none, .netErr :: rest =>
      if h : tries ≤ 1 then
        ⟨.raised, cache, rest, [.ensureSession, .permitAcquire, .upstreamCall, .permitRelease]⟩
      else
        let o := getWeatherGo city now (tries - 1) cache rest
        ⟨o.result, o.cache, o.remaining,
          [.ensureSession, .permitAcquire, .upstreamCall, .permitRelease, .backoffSleep]
            ++ o.events⟩
termination_by (resps.length, tries)
decreasing_by
  · simp only [List.length_nil]
    exact Prod.Lex.right _ (by omega)
  · exact Prod.Lex.left _ _ (by simp)
  · exact Prod.Lex.left _ _ (by simp)

/-- A top-level call of the decorated `get_weather_data`. -/
def get_weather_data (city : String) (now : ℚ) (cache : Cache)
    (resps : List Upstream) : FetchOut :=
  getWeatherGo city now 3 cache resps

/-- A list already sorted by timestamp is left unchanged by the stable
sort `calculate_condition_duration` performs. -/
theorem mergeSort_tsLe_of_sorted {l : List WRec}
    (h : l.Pairwise (fun a b => a.timestamp ≤ b.timestamp)) :
    l.mergeSort tsLe = l :=
  List.mergeSort_of_sorted (h.imp fun hab => by simp [tsLe, hab])

theorem lastTsFrom_nil (p : ℚ) : lastTsFrom p [] = p := rfl

theorem lastTsFrom_cons (p : ℚ) (r : WRec) (rs : List WRec) :
    lastTsFrom p (r :: rs) = lastTsFrom r.timestamp rs := by
  cases rs with
  | nil => simp [lastTsFrom]
  | cons x xs =>
    obtain ⟨y, hy⟩ : ∃ y, (x :: xs).getLast? = some y :=
      ⟨(x :: xs).getLast (by simp), List.getLast?_eq_getLast _ _⟩
    simp [lastTsFrom, List.getLast?_cons_cons, hy]

theorem lastTs_cons (r : WRec) (rs : List WRec) :
    lastTs (r :: rs) = lastTsFrom r.timestamp rs := by
  cases rs with
  | nil => simp [lastTs, lastTsFrom]
  | cons x xs =>
    obtain ⟨y, hy⟩ : ∃ y, (x :: xs).getLast? = some y :=
      ⟨(x :: xs).getLast (by simp), List.getLast?_eq_getLast _ _⟩
    simp [lastTs, lastTsFrom, List.getLast?_cons_cons, hy]

theorem le_lastTsFrom {p : ℚ} {rs : List WRec}
    (hch : List.Chain gapRel p (rs.map WRec.timestamp)) : p ≤ lastTsFrom p rs := by
  induction rs generalizing p with
  | nil => simp [lastTsFrom]
  | cons r rest ih =>
    rw [List.map_cons, List.chain_cons] at hch
    rw [lastTsFrom_cons]
    exact le_trans hch.1.1 (ih hch.2)

theorem ts_le_lastTsFrom {r : WRec} {rest : List WRec} {a : WRec}
    (ha : a ∈ r :: rest)
    (hch : List.Chain gapRel r.timestamp (rest.map WRec.timestamp)) :
    a.timestamp ≤ lastTsFrom r.timestamp rest := by
  induction rest generalizing r with
  | nil => simp_all [lastTsFrom]
  | cons x xs ih =>
    rw [List.map_cons, List.chain_cons] at hch
    rw [lastTsFrom_cons]
    rcases List.mem_cons.1 ha with rfl | ha1
    · exact le_trans hch.1.1 (le_lastTsFrom hch.2)
    · exact ih ha1 hch.2

/-- The inner loop of `calculate_condition_duration` over a continuous
run: all records match the condition, the previous timestamp `p` is set,
and every step (including the one from `p`) is time-ordered with gap
≤ 6 h.  The run extends `current_duration` by the elapsed time and keeps
the running maximum. -/
theorem foldl_durStep_chain (c : String) (rs : List WRec) (cur m p : ℚ)
    (hcm : cur ≤ m)
    (hall : ∀ r ∈ rs, r.main_weather = c)
    (hch : List.Chain gapRel p (rs.map WRec.timestamp)) :
    rs.foldl (durStep c) ⟨cur, m, some p⟩ =
      ⟨cur + (lastTsFrom p rs - p), max m (cur + (lastTsFrom p rs - p)),
        some (lastTsFrom p rs)⟩ := by
  induction rs generalizing cur m p with
  | nil =>
    simp only [List.foldl_nil, lastTsFrom_nil, sub_self, add_zero]
    rw [max_eq_left hcm]
  | cons r rest ih =>
    rw [List.map_cons, List.chain_cons] at hch
    obtain ⟨⟨hle, hgap⟩, hch2⟩ := hch
    have hstep : durStep c ⟨cur, m, some p⟩ r =
        ⟨cur + (r.timestamp - p), max m (cur + (r.timestamp - p)), some r.timestamp⟩ := by
      simp [durStep, hall r (List.mem_cons_self r rest), hgap]
    have hL : r.timestamp ≤ lastTsFrom r.timestamp rest := le_lastTsFrom hch2
    rw [List.foldl_cons, hstep,
      ih _ _ _ (le_max_right _ _) (fun x hx => hall x (List.mem_cons_of_mem _ hx)) hch2,
      lastTsFrom_cons]
    have e1 : cur + (r.timestamp - p) + (lastTsFrom r.timestamp rest - r.timestamp) =
        cur + (lastTsFrom r.timestamp rest - p) := by ring
    have e2 : max (max m (cur + (r.timestamp - p)))
        (cur + (r.timestamp - p) + (lastTsFrom r.timestamp rest - r.timestamp)) =
        max m (cur + (lastTsFrom r.timestamp rest - p)) := by
      rw [max_assoc,
        max_eq_right (show cur + (r.timestamp - p) ≤
          cur + (r.timestamp - p) + (lastTsFrom r.timestamp rest - r.timestamp) by
            linarith), e1]
    rw [e2, e1]

/-- Folding the duration loop over a fresh continuous run from the reset
state `⟨0, m, none⟩`. -/
theorem foldl_durStep_fresh (c : String) (r : WRec) (rest : List WRec) (m : ℚ)
    (hm : 0 ≤ m)
    (hall : ∀ x ∈ r :: rest, x.main_weather = c)
    (hch : List.Chain gapRel r.timestamp (rest.map WRec.timestamp)) :
    (r :: rest).foldl (durStep c) ⟨0, m, none⟩ =
      ⟨lastTsFrom r.timestamp rest - r.timestamp,
        max m (lastTsFrom r.timestamp rest - r.timestamp),
        some (lastTsFrom r.timestamp rest)⟩ := by
  have hstep : durStep c ⟨0, m, none⟩ r = ⟨0, m, some r.timestamp⟩ := by
    simp [durStep, hall r (List.mem_cons_self r rest), max_eq_left hm]
  rw [List.foldl_cons, hstep,
    foldl_durStep_chain c rest 0 m r.timestamp hm
      (fun x hx => hall x (List.mem_cons_of_mem _ hx)) hch]
  simp

/-- A chained run is sorted by timestamp. -/
theorem pairwise_le_of_chain {r : WRec} {rest : List WRec}
    (hch : List.Chain gapRel r.timestamp (rest.map WRec.timestamp)) :
    (r :: rest).Pairwise (fun a b => a.timestamp ≤ b.timestamp) := by
  have h1 : List.Chain (fun a b : WRec => a.timestamp ≤ b.timestamp) r rest :=
    (List.chain_map WRec.timestamp).1 (hch.imp fun _ _ hab => hab.1)
  have h2 : List.Chain' (fun a b : WRec => a.timestamp ≤ b.timestamp) (r :: rest) := h1
  exact (@List.chain'_iff_pairwise WRec (fun a b => a.timestamp ≤ b.timestamp)
    ⟨fun _ _ _ => le_trans⟩ (r :: rest)).1 h2

theorem head_ts_le_of_chain {r : WRec} {rest : List WRec}
    (hch : List.Chain gapRel r.timestamp (rest.map WRec.timestamp)) :
    ∀ b ∈ r :: rest, r.timestamp ≤ b.timestamp := by
  intro b hb
  rcases List.mem_cons.1 hb with rfl | hb1
  · exact le_refl _
  · exact (List.pairwise_cons.1 (pairwise_le_of_chain hch)).1 b hb1

/-- Duration of a single continuous run of the condition: the elapsed
time from the first to the last record, rounded to one decimal. -/
theorem calc_duration_single_run (c : String) (r : WRec) (rest : List WRec)
    (hall : ∀ x ∈ r :: rest, x.main_weather = c)
    (hch : List.Chain gapRel r.timestamp (rest.map WRec.timestamp)) :
    calculate_condition_duration (r :: rest) c =
      pyRound (lastTsFrom r.timestamp rest - r.timestamp) 1 := by
  rw [calculate_condition_duration, if_neg (by simp),
    mergeSort_tsLe_of_sorted (pairwise_le_of_chain hch)]
  simp only [foldl_durStep_fresh c r rest 0 (le_refl 0) hall hch]
  simp [max_eq_right (sub_nonneg.2 (le_lastTsFrom hch))]

/-- Two continuous runs of the condition separated by a gap of more than
6 hours: the duration is the span of the longer sub-run (rounded). -/
theorem calc_duration_two_runs (c : String) (r1 : WRec) (rs1 : List WRec)
    (r2 : WRec) (rs2 : List WRec)
    (h1all : ∀ x ∈ r1 :: rs1, x.main_weather = c)
    (h1ch : List.Chain gapRel r1.timestamp (rs1.map WRec.timestamp))
    (h2all : ∀ x ∈ r2 :: rs2, x.main_weather = c)
    (h2ch : List.Chain gapRel r2.timestamp (rs2.map WRec.timestamp))
    (hgt : 6 < r2.timestamp - lastTsFrom r1.timestamp rs1) :
    calculate_condition_duration ((r1 :: rs1) ++ (r2 :: rs2)) c =
      pyRound (max (lastTsFrom r1.timestamp rs1 - r1.timestamp)
        (lastTsFrom r2.timestamp rs2 - r2.timestamp)) 1 := by
  have hS1 : (0:ℚ) ≤ lastTsFrom r1.timestamp rs1 - r1.timestamp :=
    sub_nonneg.2 (le_lastTsFrom h1ch)
  have hpw : ((r1 :: rs1) ++ (r2 :: rs2)).Pairwise
      (fun a b => a.timestamp ≤ b.timestamp) := by
    refine List.pairwise_append.2
      ⟨pairwise_le_of_chain h1ch, pairwise_le_of_chain h2ch, ?_⟩
    intro a ha b hb
    have ha1 : a.timestamp ≤ lastTsFrom r1.timestamp rs1 := ts_le_lastTsFrom ha h1ch
    have hb1 : r2.timestamp ≤ b.timestamp := head_ts_le_of_chain h2ch b hb
    linarith
  have hstep : durStep c ⟨lastTsFrom r1.timestamp rs1 - r1.timestamp,
      max 0 (lastTsFrom r1.timestamp rs1 - r1.timestamp),
      some (lastTsFrom r1.timestamp rs1)⟩ r2 =
      ⟨0, max 0 (lastTsFrom r1.timestamp rs1 - r1.timestamp), some r2.timestamp⟩ := by
    simp [durStep, h2all r2 (List.mem_cons_self r2 rs2), not_le.2 hgt,
      max_eq_left (le_max_left (0:ℚ) (lastTsFrom r1.timestamp rs1 - r1.timestamp))]
  rw [calculate_condition_duration, if_neg (by simp), mergeSort_tsLe_of_sorted hpw]
  simp only [List.foldl_append,
    foldl_durStep_fresh c r1 rs1 0 (le_refl 0) h1all h1ch,
    List.foldl_cons, hstep,
    foldl_durStep_chain c rs2 0 _ r2.timestamp
      (le_max_left 0 (lastTsFrom r1.timestamp rs1 - r1.timestamp))
      (fun x hx => h2all x (List.mem_cons_of_mem _ hx)) h2ch]
  simp [max_eq_right hS1]

/-- A record of a different condition interposed between two runs breaks
the run even without a large time gap: the duration is the longer
span of the longer sub-run (rounded). -/
theorem calc_duration_interleaved (c : String) (r1 : WRec) (rs1 : List WRec)
    (d : WRec) (r2 : WRec) (rs2 : List WRec)
    (h1all : ∀ x ∈ r1 :: rs1, x.main_weather = c)
    (h1ch : List.Chain gapRel r1.timestamp (rs1.map WRec.timestamp))
    (h2all : ∀ x ∈ r2 :: rs2, x.main_weather = c)
    (h2ch : List.Chain gapRel r2.timestamp (rs2.map WRec.timestamp))
    (hdc : d.main_weather ≠ c)
    (hd1 : lastTsFrom r1.timestamp rs1 ≤ d.timestamp)
    (hd2 : d.timestamp ≤ r2.timestamp) :
    calculate_condition_duration ((r1 :: rs1) ++ d :: r2 :: rs2) c =
      pyRound (max (lastTsFrom r1.timestamp rs1 - r1.timestamp)
        (lastTsFrom r2.timestamp rs2 - r2.timestamp)) 1 := by
  have hS1 : (0:ℚ) ≤ lastTsFrom r1.timestamp rs1 - r1.timestamp :=
    sub_nonneg.2 (le_lastTsFrom h1ch)
  have hb2 : ∀ b ∈ r2 :: rs2, d.timestamp ≤ b.timestamp :=
    fun b hb => le_trans hd2 (head_ts_le_of_chain h2ch b hb)
  have hpw : ((r1 :: rs1) ++ d :: r2 :: rs2).Pairwise
      (fun a b => a.timestamp ≤ b.timestamp) := by
    refine List.pairwise_append.2
      ⟨pairwise_le_of_chain h1ch,
        List.pairwise_cons.2 ⟨hb2, pairwise_le_of_chain h2ch⟩, ?_⟩
    intro a ha b hb
    have ha1 : a.timestamp ≤ lastTsFrom r1.timestamp rs1 := ts_le_lastTsFrom ha h1ch
    rcases List.mem_cons.1 hb with rfl | hb1
    · linarith
    · have := hb2 b hb1
      linarith
  have hd_step : durStep c ⟨lastTsFrom r1.timestamp rs1 - r1.timestamp,
      max 0 (lastTsFrom r1.timestamp rs1 - r1.timestamp),
      some (lastTsFrom r1.timestamp rs1)⟩ d =
      ⟨0, max 0 (lastTsFrom r1.timestamp rs1 - r1.timestamp), none⟩ := by
    simp [durStep, hdc]
  rw [calculate_condition_duration, if_neg (by simp), mergeSort_tsLe_of_sorted hpw]
  simp only [List.foldl_append,
    foldl_durStep_fresh c r1 rs1 0 (le_refl 0) h1all h1ch,
    List.foldl_cons, hd_step,
    foldl_durStep_fresh c r2 rs2 _
      (le_max_left 0 (lastTsFrom r1.timestamp rs1 - r1.timestamp)) h2all h2ch]
  simp [max_eq_right hS1]

theorem one_le_severity_weights (w : String) : (1:ℚ) ≤ severity_weights w := by
  unfold severity_weights
  split_ifs <;> norm_num

end WeatherMonitoring

open WeatherMonitoring

/-- C1 counterexample: with threshold 35 and consecutiveRequired 2, the
sequence [34, 36, 36, 36] produces an alert at the third AND the fourth
reading (two AlertEvents), not exactly one: `check_temperature_alert`
compares the streak with `>=` and fires on every reading from the second
consecutive breach onward, with no latch. -/
theorem alert_refires_counterexample :
    ((AlertSystem.init settings0).runSeq "Delhi" [34, 36, 36, 36]).1 =
      [false, false, true, true] ∧
    ((AlertSystem.init settings0).runSeq "Delhi" [34, 36, 36, 36]).1.count true = 2 := by
  decide

/-- C1 (amended): while a breach streak persists, every reading whose
streak count reaches `consecutive_required` fires an alert (the detector
re-fires on each subsequent breaching reading); on [34, 36, 36, 36] the
fired flags are [false, false, true, true], and a below-threshold
reading resets the streak so no further alert fires until the count
climbs back to the required value. -/
theorem alert_fires_while_streak_at_required :
    (∀ (s : AlertSystem) (city : String) (temp : ℚ),
      s.temperature_threshold < temp →
      (s.check_temperature_alert city temp).1 =
        decide (s.consecutive_required ≤ s.alert_counts city + 1) ∧
      (s.check_temperature_alert city temp).2.alert_counts city =
        s.alert_counts city + 1) ∧
    ((AlertSystem.init settings0).runSeq "Delhi" [34, 36, 36, 36]).1 =
      [false, false, true, true] := by
  constructor
  · intro s city temp h
    simp only [AlertSystem.check_temperature_alert, if_pos h]
    constructor
    · split_ifs with hge <;> simp [hge]
    · split_ifs <;> simp
  · decide

theorem alert_fires_while_streak_at_required_witness :
    ((AlertSystem.init settings0).check_temperature_alert "Delhi" 36).1 =
      decide ((AlertSystem.init settings0).consecutive_required ≤
        (AlertSystem.init settings0).alert_counts "Delhi" + 1) ∧
    ((AlertSystem.init settings0).check_temperature_alert "Delhi" 36).2.alert_counts
      "Delhi" = (AlertSystem.init settings0).alert_counts "Delhi" + 1 :=
  alert_fires_while_streak_at_required.1 (AlertSystem.init settings0) "Delhi" 36
    (by decide)

/-- C3: the alert configuration is captured at construction, not read at
evaluation time.  `update_alert_config` sets the settings to threshold
30 / required 1, yet a detector built from the old settings still treats
two 32 °C readings as non-breaching (32 ≤ its cached threshold 35),
producing no alert where the claim requires one per reading. -/
theorem alert_config_captured_at_construction :
    (AlertSystem.init settings0).temperature_threshold = 35 ∧
    (update_alert_config settings0 ⟨30, 1⟩).ALERT_TEMPERATURE_THRESHOLD = 30 ∧
    (update_alert_config settings0 ⟨30, 1⟩).CONSECUTIVE_ALERTS_REQUIRED = 1 ∧
    ((AlertSystem.init settings0).runSeq "Delhi" [32, 32]).1 = [false, false] ∧
    (30:ℚ) < 32 := by
  refine ⟨rfl, rfl, rfl, by decide, by decide⟩

/-- C6: a reading that does not exceed the threshold resets the per-city
consecutive count to 0 and fires nothing, whatever the prior streak; and
on [36, 34, 36, 36] with threshold 35 / required 2 exactly one alert is
produced, at the final element. -/
theorem below_threshold_resets_streak :
    (∀ (s : AlertSystem) (city : String) (temp : ℚ),
      temp ≤ s.temperature_threshold →
      (s.check_temperature_alert city temp).1 = false ∧
      (s.check_temperature_alert city temp).2.alert_counts city = 0) ∧
    ((AlertSystem.init settings0).runSeq "Delhi" [36, 34, 36, 36]).1 =
      [false, false, false, true] := by
  constructor
  · intro s city temp h
    simp only [AlertSystem.check_temperature_alert, if_neg (not_lt.2 h)]
    simp
  · decide

theorem below_threshold_resets_streak_witness :
    ((AlertSystem.init settings0).check_temperature_alert "Delhi" 30).1 = false ∧
    ((AlertSystem.init settings0).check_temperature_alert "Delhi" 30).2.alert_counts
      "Delhi" = 0 :=
  below_threshold_resets_streak.1 (AlertSystem.init settings0) "Delhi" 30 (by decide)

/-- C4 counterexample: the scorer output depends on the clock instant
at which it runs.  `determine_dominant_weather` reads the clock itself
(`now = datetime.utcnow()`, src/data_processor.py line 113) — there is
no explicit evaluationTime parameter — and on the same two records the
confidence is 97.06 when evaluated at hour 10 but 85.14 at hour 20. -/
theorem scorer_clock_dependence_counterexample :
    (determine_dominant_weather [⟨"Clear", 0⟩, ⟨"Rain", 10⟩] 20).confidence <
      (determine_dominant_weather [⟨"Clear", 0⟩, ⟨"Rain", 10⟩] 10).confidence := by
  have h10 : (determine_dominant_weather [⟨"Clear", 0⟩, ⟨"Rain", 10⟩] 10).confidence =
      9706/100 := by
    rw [determine_dominant_weather]
    simp [List.foldl, addScore, severity_weights, maxByValue]
    norm_num [pyRound, roundHalfEven, Int.fract]
  have h20 : (determine_dominant_weather [⟨"Clear", 0⟩, ⟨"Rain", 10⟩] 20).confidence =
      8514/100 := by
    rw [determine_dominant_weather]
    simp [List.foldl, addScore, severity_weights, maxByValue]
    norm_num [pyRound, roundHalfEven, Int.fract]
  rw [h10, h20]
  norm_num

/-- C4 (amended): the scorer is a pure function of the reading sequence
and of the internally-read clock value (datetime.utcnow()): identical
readings and identical clock instant give identical ScoreResults, but
the clock is read inside the function rather than passed as an explicit
evaluationTime parameter, and the result genuinely varies with it. -/
theorem scorer_deterministic_given_records_and_clock :
    (∀ (recs : List WRec) (now : ℚ),
      determine_dominant_weather recs now = determine_dominant_weather recs now) ∧
    (determine_dominant_weather [⟨"Clear", 0⟩, ⟨"Rain", 10⟩] 20).confidence <
      (determine_dominant_weather [⟨"Clear", 0⟩, ⟨"Rain", 10⟩] 10).confidence := by
  refine ⟨fun recs now => rfl, ?_⟩
  have h10 : (determine_dominant_weather [⟨"Clear", 0⟩, ⟨"Rain", 10⟩] 10).confidence =
      9706/100 := by
    rw [determine_dominant_weather]
    simp [List.foldl, addScore, severity_weights, maxByValue]
    norm_num [pyRound, roundHalfEven, Int.fract]
  have h20 : (determine_dominant_weather [⟨"Clear", 0⟩, ⟨"Rain", 10⟩] 20).confidence =
      8514/100 := by
    rw [determine_dominant_weather]
    simp [List.foldl, addScore, severity_weights, maxByValue]
    norm_num [pyRound, roundHalfEven, Int.fract]
  rw [h10, h20]
  norm_num

/-- C8: the scorer returns null condition, confidence 0 and duration 0
on an empty window, and for a single (not future-dated) reading returns
duration 0 and confidence 100 for the condition of that reading. -/
theorem scorer_edge_cases :
    (∀ now : ℚ, determine_dominant_weather [] now = ⟨none, 0, 0, none⟩) ∧
    (∀ (r : WRec) (now : ℚ), r.timestamp ≤ now →
      determine_dominant_weather [r] now =
        ⟨some r.main_weather, 100, 0, some (severity_weights r.main_weather)⟩) := by
  constructor
  · intro now
    rfl
  · intro r now h
    have hw : (0:ℚ) < 1 / (1 + (now - r.timestamp)) * severity_weights r.main_weather := by
      have h1 : (0:ℚ) < 1 + (now - r.timestamp) := by linarith
      have h2 : (1:ℚ) ≤ severity_weights r.main_weather := one_le_severity_weights r.main_weather
      exact mul_pos (div_pos one_pos h1) (lt_of_lt_of_le one_pos h2)
    have hdur : calculate_condition_duration [r] r.main_weather = 0 := by
      rw [calc_duration_single_run r.main_weather r []
        (by intro x hx; simp at hx; rw [hx]) (by simp)]
      norm_num [lastTsFrom, pyRound, roundHalfEven]
    rw [determine_dominant_weather]
    simp only [List.foldl_cons, List.foldl_nil, addScore, maxByValue, zero_add,
      if_neg (List.cons_ne_nil r [])]
    rw [if_pos hw, div_self (ne_of_gt hw), one_mul, hdur]
    norm_num [pyRound, roundHalfEven]

theorem scorer_edge_cases_witness :
    determine_dominant_weather [(⟨"Clear", 0⟩ : WRec)] 5 =
      ⟨some "Clear", 100, 0, some (severity_weights "Clear")⟩ :=
  scorer_edge_cases.2 ⟨"Clear", 0⟩ 5 (by norm_num)

theorem mergeSort_tsLe_perm_eq {l1 l2 : List WRec} (hp : l1.Perm l2)
    (hnd : (l1.map WRec.timestamp).Nodup) :
    l1.mergeSort tsLe = l2.mergeSort tsLe := by
  have htrans : ∀ (a b c : WRec), tsLe a b → tsLe b c → tsLe a c := by
    intro a b c hab hbc
    simp only [tsLe, decide_eq_true_eq] at *
    exact le_trans hab hbc
  have htotal : ∀ (a b : WRec), tsLe a b || tsLe b a := by
    intro a b
    simp only [tsLe, Bool.or_eq_true, decide_eq_true_eq]
    exact le_total _ _
  have hperm : (l1.mergeSort tsLe).Perm (l2.mergeSort tsLe) :=
    ((List.mergeSort_perm l1 tsLe).trans hp).trans (List.mergeSort_perm l2 tsLe).symm
  have hnd1 : ((l1.mergeSort tsLe).map WRec.timestamp).Nodup :=
    (((List.mergeSort_perm l1 tsLe).map WRec.timestamp).nodup_iff).2 hnd
  have hnd2 : ((l2.mergeSort tsLe).map WRec.timestamp).Nodup :=
    (((List.mergeSort_perm l2 tsLe).map WRec.timestamp).nodup_iff).2
      ((hp.map WRec.timestamp).nodup_iff.1 hnd)
  have strict : ∀ {s : List WRec}, s.Pairwise (fun a b => tsLe a b) →
      (s.map WRec.timestamp).Nodup →
      s.Pairwise (fun a b => a.timestamp < b.timestamp) := by
    intro s hle hnd0
    have hne : s.Pairwise (fun a b => a.timestamp ≠ b.timestamp) :=
      (List.pairwise_map).1 hnd0
    exact (hle.and hne).imp fun h =>
      lt_of_le_of_ne (by simpa [tsLe] using h.1) h.2
  exact @List.eq_of_perm_of_sorted WRec (fun a b => a.timestamp < b.timestamp)
    ⟨fun a b h1 h2 => absurd h2 (not_lt.2 h1.le)⟩ _ _ hperm
    (strict (List.sorted_mergeSort htrans htotal l1) hnd1)
    (strict (List.sorted_mergeSort htrans htotal l2) hnd2)

/-- C10 counterexample: permutation invariance fails when two records
share a timestamp.  The Python `sorted` is stable, so the tied records
keep their input order, and the scan is order-sensitive among ties:
[Clear@0, Clear@6, Fog@6] gives duration 6.0 for "Clear" while its
permutation [Clear@0, Fog@6, Clear@6] gives 0. -/
theorem duration_perm_counterexample :
    calculate_condition_duration [⟨"Clear", 0⟩, ⟨"Clear", 6⟩, ⟨"Fog", 6⟩] "Clear" = 6 ∧
    calculate_condition_duration [⟨"Clear", 0⟩, ⟨"Fog", 6⟩, ⟨"Clear", 6⟩] "Clear" = 0 ∧
    List.Perm [(⟨"Clear", 0⟩ : WRec), ⟨"Clear", 6⟩, ⟨"Fog", 6⟩]
      [⟨"Clear", 0⟩, ⟨"Fog", 6⟩, ⟨"Clear", 6⟩] := by
  refine ⟨?_, ?_, List.Perm.cons _ (List.Perm.swap _ _ _)⟩
  · rw [calculate_condition_duration, if_neg (by simp),
      mergeSort_tsLe_of_sorted (by norm_num [List.pairwise_cons])]
    simp [List.foldl, durStep]
    norm_num [pyRound, roundHalfEven, Int.fract]
  · rw [calculate_condition_duration, if_neg (by simp),
      mergeSort_tsLe_of_sorted (by norm_num [List.pairwise_cons])]
    simp [List.foldl, durStep]
    norm_num [pyRound, roundHalfEven, Int.fract]

/-- C10 (amended): the condition-duration computation sorts its input by
timestamp before scanning, so it is invariant under permutation of the
input list whenever all timestamps are distinct (with tied timestamps
the stable sort preserves input order and the result can differ). -/
theorem duration_perm_invariant_distinct_timestamps :
    ∀ (l1 l2 : List WRec) (c : String), l1.Perm l2 →
      (l1.map WRec.timestamp).Nodup →
      calculate_condition_duration l1 c = calculate_condition_duration l2 c := by
  intro l1 l2 c hp hnd
  by_cases h1 : l1 = []
  · subst h1
    rw [hp.symm.eq_nil]
  · have h2 : l2 ≠ [] := fun he => h1 ((he ▸ hp).eq_nil)
    simp only [calculate_condition_duration, if_neg h1, if_neg h2,
      mergeSort_tsLe_perm_eq hp hnd]

theorem duration_perm_invariant_distinct_timestamps_witness :
    calculate_condition_duration [(⟨"Clear", 0⟩ : WRec), ⟨"Fog", 6⟩] "Clear" =
      calculate_condition_duration [(⟨"Fog", 6⟩ : WRec), ⟨"Clear", 0⟩] "Clear" :=
  duration_perm_invariant_distinct_timestamps _ _ "Clear"
    (List.Perm.swap _ _ _) (by norm_num [List.nodup_cons])

/-- C5 counterexample: `calculate_condition_duration` rounds its result
to one decimal (`round(max_duration, 1)`), so for a single run from hour
0 to hour 1/3 (20 minutes) it returns 0.3, not the exact elapsed time
1/3 from first to last occurrence. -/
theorem duration_rounding_counterexample :
    calculate_condition_duration [⟨"Clear", 0⟩, ⟨"Clear", 1/3⟩] "Clear" = 3/10 ∧
    lastTs [(⟨"Clear", 0⟩ : WRec), ⟨"Clear", 1/3⟩] -
      (⟨"Clear", (0:ℚ)⟩ : WRec).timestamp = 1/3 ∧
    (3/10 : ℚ) < 1/3 := by
  refine ⟨?_, by norm_num [lastTs], by norm_num⟩
  rw [calculate_condition_duration, if_neg (by simp),
    mergeSort_tsLe_of_sorted (by norm_num [List.pairwise_cons])]
  simp [List.foldl, durStep]
  norm_num [pyRound, roundHalfEven, Int.fract]

/-- C5 (amended): up to the final rounding to one decimal, the duration
is run-based: (i) a single time-ordered run of one condition with
successive gaps ≤ 6 h scores the elapsed time from its first to its last
record; (ii) two such runs separated by a gap > 6 h score the span of
the longer sub-run, not the full span; (iii) a record of a different
condition interposed between two runs breaks the run the same way, even
without any large time gap. -/
theorem duration_run_semantics :
    (∀ (c : String) (r : WRec) (rest : List WRec),
      (∀ x ∈ r :: rest, x.main_weather = c) →
      List.Chain gapRel r.timestamp (rest.map WRec.timestamp) →
      calculate_condition_duration (r :: rest) c =
        pyRound (lastTs (r :: rest) - r.timestamp) 1) ∧
    (∀ (c : String) (r1 : WRec) (rs1 : List WRec) (r2 : WRec) (rs2 : List WRec),
      (∀ x ∈ r1 :: rs1, x.main_weather = c) →
      List.Chain gapRel r1.timestamp (rs1.map WRec.timestamp) →
      (∀ x ∈ r2 :: rs2, x.main_weather = c) →
      List.Chain gapRel r2.timestamp (rs2.map WRec.timestamp) →
      6 < r2.timestamp - lastTs (r1 :: rs1) →
      calculate_condition_duration ((r1 :: rs1) ++ (r2 :: rs2)) c =
        pyRound (max (lastTs (r1 :: rs1) - r1.timestamp)
          (lastTs (r2 :: rs2) - r2.timestamp)) 1) ∧
    (∀ (c : String) (r1 : WRec) (rs1 : List WRec) (d : WRec)
        (r2 : WRec) (rs2 : List WRec),
      (∀ x ∈ r1 :: rs1, x.main_weather = c) →
      List.Chain gapRel r1.timestamp (rs1.map WRec.timestamp) →
      (∀ x ∈ r2 :: rs2, x.main_weather = c) →
      List.Chain gapRel r2.timestamp (rs2.map WRec.timestamp) →
      d.main_weather ≠ c →
      lastTs (r1 :: rs1) ≤ d.timestamp →
      d.timestamp ≤ r2.timestamp →
      calculate_condition_duration ((r1 :: rs1) ++ d :: r2 :: rs2) c =
        pyRound (max (lastTs (r1 :: rs1) - r1.timestamp)
          (lastTs (r2 :: rs2) - r2.timestamp)) 1) := by
  refine ⟨?_, ?_, ?_⟩
  · intro c r rest hall hch
    rw [lastTs_cons]
    exact calc_duration_single_run c r rest hall hch
  · intro c r1 rs1 r2 rs2 h1all h1ch h2all h2ch hgt
    rw [lastTs_cons] at hgt
    rw [lastTs_cons, lastTs_cons]
    exact calc_duration_two_runs c r1 rs1 r2 rs2 h1all h1ch h2all h2ch hgt
  · intro c r1 rs1 d r2 rs2 h1all h1ch h2all h2ch hdc hd1 hd2
    rw [lastTs_cons] at hd1
    rw [lastTs_cons, lastTs_cons]
    exact calc_duration_interleaved c r1 rs1 d r2 rs2 h1all h1ch h2all h2ch hdc hd1 hd2

theorem duration_run_semantics_witness :
    calculate_condition_duration [⟨"Rain", 0⟩, ⟨"Rain", 2⟩] "Rain" =
      pyRound (lastTs [(⟨"Rain", 0⟩ : WRec), ⟨"Rain", 2⟩] -
        (⟨"Rain", (0:ℚ)⟩ : WRec).timestamp) 1 ∧
    calculate_condition_duration [⟨"Rain", 0⟩, ⟨"Rain", 10⟩] "Rain" =
      pyRound (max (lastTs [(⟨"Rain", (0:ℚ)⟩ : WRec)] -
        (⟨"Rain", (0:ℚ)⟩ : WRec).timestamp)
        (lastTs [(⟨"Rain", (10:ℚ)⟩ : WRec)] -
          (⟨"Rain", (10:ℚ)⟩ : WRec).timestamp)) 1 ∧
    calculate_condition_duration [⟨"Rain", 0⟩, ⟨"Clear", 1⟩, ⟨"Rain", 2⟩] "Rain" =
      pyRound (max (lastTs [(⟨"Rain", (0:ℚ)⟩ : WRec)] -
        (⟨"Rain", (0:ℚ)⟩ : WRec).timestamp)
        (lastTs [(⟨"Rain", (2:ℚ)⟩ : WRec)] -
          (⟨"Rain", (2:ℚ)⟩ : WRec).timestamp)) 1 := by
  refine ⟨?_, ?_, ?_⟩
  · exact duration_run_semantics.1 "Rain" ⟨"Rain", 0⟩ [⟨"Rain", 2⟩]
      (by intro x hx; simp at hx; rcases hx with rfl | rfl <;> rfl)
      (by norm_num [List.chain_cons, gapRel])
  · exact duration_run_semantics.2.1 "Rain" ⟨"Rain", 0⟩ [] ⟨"Rain", 10⟩ []
      (by intro x hx; simp at hx; rw [hx])
      (by simp)
      (by intro x hx; simp at hx; rw [hx])
      (by simp)
      (by norm_num [lastTs])
  · exact duration_run_semantics.2.2 "Rain" ⟨"Rain", 0⟩ [] ⟨"Clear", 1⟩ ⟨"Rain", 2⟩ []
      (by intro x hx; simp at hx; rw [hx])
      (by simp)
      (by intro x hx; simp at hx; rw [hx])
      (by simp)
      (by simp)
      (by norm_num [lastTs])
      (by norm_num)

/-- C2 counterexample: a 429 whose delayed retry is answered by another
429 triggers yet another delayed retry.  On the script
[429 (Retry-After 60), 429 (Retry-After 60), 200] the client makes three
upstream attempts and sleeps twice — not the single additional attempt
the claim allows after a 429 — because the 429 branch recursively
re-enters `get_weather_data` without any bound. -/
theorem rate_limit_retry_counterexample :
    (get_weather_data "Delhi" 0 []
      [.rateLimited (some 60), .rateLimited (some 60),
        .ok ⟨"Clear", 30, 30, 50, 5, 0⟩]).events.count .upstreamCall = 3 ∧
    (get_weather_data "Delhi" 0 []
      [.rateLimited (some 60), .rateLimited (some 60),
        .ok ⟨"Clear", 30, 30, 50, 5, 0⟩]).events.count (.sleep 60) = 2 := by
  constructor <;>
    simp [get_weather_data, getWeatherGo, cacheLookup, List.find?, mkReading]

/-- C2 (amended): each 429 response makes the client sleep for the
server-specified Retry-After duration (default 60 s when the header is
absent) and then re-enter the fully decorated fetch once, with a fresh
backoff budget and no generic backoff retries stacked on top; a single
429 answered by a success therefore costs exactly one extra attempt, but
repeated 429s each trigger another retry with no bound. -/
theorem rate_limited_delayed_retry :
    (∀ (city : String) (now : ℚ) (cache : Cache) (ra : Option ℕ)
        (rest : List Upstream),
      cacheLookup cache (city ++ "_weather") now = none →
      get_weather_data city now cache (.rateLimited ra :: rest) =
        ⟨(get_weather_data city now cache rest).result,
          (get_weather_data city now cache rest).cache,
          (get_weather_data city now cache rest).remaining,
          [.ensureSession, .permitAcquire, .upstreamCall, .sleep (ra.getD 60)]
            ++ (get_weather_data city now cache rest).events
            ++ [.permitRelease]⟩) ∧
    (∀ (city : String) (now : ℚ) (cache : Cache) (ra : Option ℕ)
        (d : UpstreamData),
      cacheLookup cache (city ++ "_weather") now = none →
      (get_weather_data city now cache [.rateLimited ra, .ok d]).events =
        [.ensureSession, .permitAcquire, .upstreamCall, .sleep (ra.getD 60),
          .ensureSession, .permitAcquire, .upstreamCall, .permitRelease,
          .permitRelease]) := by
  constructor
  · intro city now cache ra rest h
    rw [get_weather_data, getWeatherGo.eq_def]
    simp only [h]
    rfl
  · intro city now cache ra d h
    rw [get_weather_data, getWeatherGo.eq_def]
    simp only [h]
    rw [getWeatherGo.eq_def]
    simp only [h]
    rfl

theorem rate_limited_delayed_retry_witness :
    get_weather_data "Delhi" 0 [] [.rateLimited (some 7)] =
      ⟨(get_weather_data "Delhi" 0 [] []).result,
        (get_weather_data "Delhi" 0 [] []).cache,
        (get_weather_data "Delhi" 0 [] []).remaining,
        [.ensureSession, .permitAcquire, .upstreamCall, .sleep ((some 7).getD 60)]
          ++ (get_weather_data "Delhi" 0 [] []).events ++ [.permitRelease]⟩ ∧
    (get_weather_data "Delhi" 0 []
        [.rateLimited (some 7), .ok ⟨"Clear", 30, 30, 50, 5, 0⟩]).events =
      [.ensureSession, .permitAcquire, .upstreamCall, .sleep ((some 7).getD 60),
        .ensureSession, .permitAcquire, .upstreamCall, .permitRelease,
        .permitRelease] :=
  ⟨rate_limited_delayed_retry.1 "Delhi" 0 [] (some 7) [] rfl,
    rate_limited_delayed_retry.2 "Delhi" 0 [] (some 7) ⟨"Clear", 30, 30, 50, 5, 0⟩ rfl⟩

/-- C7: a fetch that finds an unexpired cache entry for the city returns
the cached reading with no upstream call and no side effects at all (the
cache, the scripted upstream, the session and the permit gate are
untouched — the event trace is empty); once the TTL instant of the entry has
passed, a fresh upstream lookup is made and a success re-populates the
cache with a new 300-second expiry. -/
theorem fetch_cache_hit_ttl :
    (∀ (city : String) (r : Reading) (tIns now : ℚ) (resps : List Upstream),
      now ≤ tIns + 300 →
      get_weather_data city now [(city ++ "_weather", r, tIns + 300)] resps =
        ⟨.returned (some r), [(city ++ "_weather", r, tIns + 300)], resps, []⟩) ∧
    (∀ (city : String) (r : Reading) (tIns now : ℚ) (d : UpstreamData)
        (rest : List Upstream),
      tIns + 300 < now →
      get_weather_data city now [(city ++ "_weather", r, tIns + 300)]
          (.ok d :: rest) =
        ⟨.returned (some (mkReading city d)),
          [(city ++ "_weather", mkReading city d, now + 300)], rest,
          [.ensureSession, .permitAcquire, .upstreamCall, .permitRelease]⟩) := by
  constructor
  · intro city r tIns now resps h
    rw [get_weather_data, getWeatherGo.eq_def]
    simp [cacheLookup, List.find?, not_lt.2 h]
  · intro city r tIns now d rest h
    rw [get_weather_data, getWeatherGo.eq_def]
    simp [cacheLookup, List.find?, h, cacheSet]

theorem fetch_cache_hit_ttl_witness :
    get_weather_data "Delhi" 100
        [("Delhi" ++ "_weather", ⟨"Delhi", "Clear", 30, 30, 50, 5, 0⟩, 0 + 300)]
        [.ok ⟨"Rain", 20, 20, 60, 4, 90⟩] =
      ⟨.returned (some ⟨"Delhi", "Clear", 30, 30, 50, 5, 0⟩),
        [("Delhi" ++ "_weather", ⟨"Delhi", "Clear", 30, 30, 50, 5, 0⟩, 0 + 300)],
        [.ok ⟨"Rain", 20, 20, 60, 4, 90⟩], []⟩ ∧
    get_weather_data "Delhi" 400
        [("Delhi" ++ "_weather", ⟨"Delhi", "Clear", 30, 30, 50, 5, 0⟩, 0 + 300)]
        [.ok ⟨"Rain", 20, 20, 60, 4, 90⟩] =
      ⟨.returned (some (mkReading "Delhi" ⟨"Rain", 20, 20, 60, 4, 90⟩)),
        [("Delhi" ++ "_weather", mkReading "Delhi" ⟨"Rain", 20, 20, 60, 4, 90⟩,
          (400:ℚ) + 300)],
        [], [.ensureSession, .permitAcquire, .upstreamCall, .permitRelease]⟩ :=
  ⟨fetch_cache_hit_ttl.1 "Delhi" ⟨"Delhi", "Clear", 30, 30, 50, 5, 0⟩ 0 100
      [.ok ⟨"Rain", 20, 20, 60, 4, 90⟩] (by norm_num),
    fetch_cache_hit_ttl.2 "Delhi" ⟨"Delhi", "Clear", 30, 30, 50, 5, 0⟩ 0 400
      ⟨"Rain", 20, 20, 60, 4, 90⟩ [] (by norm_num)⟩

/-- C9 counterexample: a well-formed "city unknown" upstream response is
not a distinct error.  The final `else` branch of the code returns `None` for
every non-200/non-429 status, so a 404 (city unknown) and a 500
(upstream failure) produce byte-for-byte identical outcomes; the caller
cannot tell `NotFound` from `Upstream`. -/
theorem not_found_indistinguishable_counterexample :
    get_weather_data "Delhi" 0 [] [.status 404] =
      get_weather_data "Delhi" 0 [] [.status 500] ∧
    (get_weather_data "Delhi" 0 [] [.status 404]).result = .returned none := by
  constructor <;> simp [get_weather_data, getWeatherGo, cacheLookup, List.find?]

/-- C9 (amended): any non-200/non-429 status (including "city unknown")
is never retried — exactly one upstream attempt is made and the rest of
the script is untouched — and surfaces to the caller as `None`, which is
distinguishable from exhausted transient failures (those re-raise the
exception after the backoff retries) but not from other upstream error
statuses, which also surface as `None`. -/
theorem status_not_retried_surfaces_none :
    (∀ (city : String) (now : ℚ) (cache : Cache) (code : ℕ)
        (rest : List Upstream),
      cacheLookup cache (city ++ "_weather") now = none →
      get_weather_data city now cache (.status code :: rest) =
        ⟨.returned none, cache, rest,
          [.ensureSession, .permitAcquire, .upstreamCall, .permitRelease]⟩) ∧
    (∀ (city : String) (now : ℚ) (cache : Cache),
      cacheLookup cache (city ++ "_weather") now = none →
      (get_weather_data city now cache [.netErr, .netErr, .netErr]).result =
        .raised) := by
  constructor
  · intro city now cache code rest h
    rw [get_weather_data, getWeatherGo.eq_def]
    simp only [h]
  · intro city now cache h
    rw [get_weather_data, getWeatherGo.eq_def]
    simp only [h]
    rw [getWeatherGo.eq_def]
    simp only [h]
    rw [getWeatherGo.eq_def]
    simp only [h]
    rfl

theorem status_not_retried_surfaces_none_witness :
    get_weather_data "Delhi" 0 [] [.status 404, .netErr] =
      ⟨.returned none, [], [.netErr],
        [.ensureSession, .permitAcquire, .upstreamCall, .permitRelease]⟩ ∧
    (get_weather_data "Delhi" 0 [] [.netErr, .netErr, .netErr]).result = .raised :=
  ⟨status_not_retried_surfaces_none.1 "Delhi" 0 [] 404 [.netErr] rfl,
    status_not_retried_surfaces_none.2 "Delhi" 0 [] rfl⟩
